import Mathlib

/-!
Shallow embedding of the admin-console data layer (users, groups, events,
surveys, join tables) and its HTTP route handlers, translated from the
TypeScript source: route handlers in `routes/users`, `routes/groups`,
`routes/events`, `routes/surveys`, and the schema migration in `db/schema`.
The PostgreSQL statements issued by the handlers are modelled as pure
functions on an explicit database state; a thrown storage error is modelled
by the `fail` flag on the state (a failing pool makes every query raise,
which each handler catches).
-/

namespace AdminPanel

/-- Scans a character list for an occurrence of `needle` as a contiguous
run, mirroring substring containment. -/
def scanContains (needle : List Char) : List Char → Bool
  | [] => needle.isEmpty
  | c :: t => needle.isPrefixOf (c :: t) || scanContains needle t

/-- Model of the JavaScript `hay.includes(needle)` string test. -/
def jsIncludes (hay needle : String) : Bool :=
  scanContains needle.toList hay.toList

/-- Lower-cased character list of a string, for case-insensitive matching. -/
def lowerChars (s : String) : List Char :=
  s.toList.map Char.toLower

/-- Model of the SQL `hay ILIKE percent-needle-percent` test: case-insensitive
substring containment. -/
def sqlILike (hay needle : String) : Bool :=
  scanContains (lowerChars needle) (lowerChars hay)

/-- SQL `ILIKE` applied to a nullable column: a NULL column never matches. -/
def sqlILikeOpt (hay : Option String) (needle : String) : Bool :=
  match hay with
  | none => false
  | some s => sqlILike s needle

/-- JavaScript falsiness of an optional string request field: absent or
the empty string. -/
def strFalsy : Option String → Bool
  | none => true
  | some s => s == ""

/-- JavaScript falsiness of an optional parsed time field: absent (covers
the empty-string case of the raw request). -/
def natFalsy : Option Nat → Bool
  | none => true
  | some _ => false

/-- Model of the JavaScript `v || d` defaulting idiom on a string field. -/
def orFalsy (v : Option String) (d : String) : String :=
  match v with
  | none => d
  | some s => if s == "" then d else s

/-- Model of the JavaScript `v || null` idiom storing NULL for a falsy
optional field. -/
def orNull (v : Option String) : Option String :=
  match v with
  | none => none
  | some s => if s == "" then none else some s

/-- A storage-level error surfaced by a query: a unique-constraint
violation (PostgreSQL error code 23505, carrying the constraint name) or
any other failure. -/
inductive SqlError where
  | uniqueViolation (constraint : String)
  | otherFailure
deriving DecidableEq, Repr

/-- A row of the `users` table. -/
structure UserRow where
  uuid : String
  username : String
  email : String
  role : String
  password : String
  status : Bool
  created_at : Nat
  updated_at : Nat
deriving DecidableEq, Repr

/-- A row of the `groups` table. -/
structure GroupRow where
  uuid : String
  name : String
  description : Option String
  created_at : Nat
  updated_at : Nat
deriving DecidableEq, Repr

/-- A row of the `events` table; times are parsed timestamps. -/
structure EventRow where
  uuid : String
  name : String
  description : Option String
  time_start : Nat
  time_end : Nat
  status : String
  created_at : Nat
  updated_at : Nat
deriving DecidableEq, Repr

/-- A row of the `surveys` table; `form` holds the JSON-stringified form
document. -/
structure SurveyRow where
  uuid : String
  name : String
  form : String
  set_point : Option String
  status : String
  created_at : Nat
  updated_at : Nat
deriving DecidableEq, Repr

/-- A row of the `relation_group_user` join table (identified by its
foreign-key pair, which carries a uniqueness constraint). -/
structure RelGroupUser where
  user_id : String
  group_id : String
deriving DecidableEq, Repr

/-- A row of the `relation_group_event` join table. -/
structure RelGroupEvent where
  event_id : String
  group_id : String
deriving DecidableEq, Repr

/-- A row of the `relation_event_survey` join table, with its optional
`file_final` reference column. -/
structure RelEventSurvey where
  survey_id : String
  event_id : String
  file_final : Option String
deriving DecidableEq, Repr

/-- The database state seen through the connection pool; `fail` models a
storage layer in which every issued query raises an unexpected error. -/
structure DbState where
  users : List UserRow
  groups : List GroupRow
  events : List EventRow
  surveys : List SurveyRow
  relation_group_user : List RelGroupUser
  relation_group_event : List RelGroupEvent
  relation_event_survey : List RelEventSurvey
  fail : Bool
deriving DecidableEq, Repr

/-- The empty store with a healthy connection. -/
def emptyDb : DbState :=
  { users := [], groups := [], events := [], surveys := [],
    relation_group_user := [], relation_group_event := [],
    relation_event_survey := [], fail := false }

/-- The uniform single-item response envelope together with the HTTP
status code it is sent with. -/
structure ApiResp where
  status : Nat
  success : Bool
  error : Option String
  message : Option String
deriving DecidableEq, Repr

/-- An error response with the given HTTP status and error string. -/
def errResp (code : Nat) (msg : String) : ApiResp :=
  { status := code, success := false, error := some msg, message := none }

/-- A 200 success response with the given message. -/
def okResp (msg : String) : ApiResp :=
  { status := 200, success := true, error := none, message := some msg }

/-- A 201 created response with the given message. -/
def createdResp (msg : String) : ApiResp :=
  { status := 201, success := true, error := none, message := some msg }

/-! ### Users -/

/-- The `CreateUserRequest` body; `none` models an absent field. -/
structure CreateUserRequest where
  username : Option String
  email : Option String
  role : Option String
  password : Option String
deriving DecidableEq, Repr

/-- The sparse `UpdateUserRequest` body; a field is written exactly when
it is `some`. -/
structure UpdateUserRequest where
  username : Option String
  email : Option String
  role : Option String
  status : Option Bool
deriving DecidableEq, Repr

/-- Number of fields present in the body, matching the length of the
dynamically assembled `SET` list. -/
def UpdateUserRequest.fieldCount (u : UpdateUserRequest) : Nat :=
  (if u.username.isSome then 1 else 0) + (if u.email.isSome then 1 else 0) +
  (if u.role.isSome then 1 else 0) + (if u.status.isSome then 1 else 0)

/-- Applies the present fields of an update body to a stored row, also
refreshing `updated_at` as the `SET` clause does. -/
def applyUserUpdate (now : Nat) (u : UpdateUserRequest) (r : UserRow) : UserRow :=
  { r with
    username := u.username.getD r.username
    email := u.email.getD r.email
    role := u.role.getD r.role
    status := u.status.getD r.status
    updated_at := now }

/-- The `UPDATE users ... WHERE uuid = id RETURNING ...` statement: yields
the new table contents and the returned rows, or raises a
unique-constraint violation when a written username or email collides
with a different row. -/
def dbUpdateUsers (now : Nat) (id : String) (u : UpdateUserRequest) (db : DbState) :
    Except SqlError (List UserRow × List UserRow) :=
  if db.fail then .error .otherFailure
  else if (db.users.filter (fun r => r.uuid == id)).isEmpty then .ok (db.users, [])
  else if u.username.any (fun v => db.users.any (fun r => r.uuid != id && r.username == v)) then
    .error (.uniqueViolation "users_username_key")
  else if u.email.any (fun v => db.users.any (fun r => r.uuid != id && r.email == v)) then
    .error (.uniqueViolation "users_email_key")
  else
    .ok (db.users.map (fun r => if r.uuid == id then applyUserUpdate now u r else r),
         (db.users.filter (fun r => r.uuid == id)).map (applyUserUpdate now u))

/-- The catch-block translation of a storage error in the user handlers:
code 23505 with a constraint name containing `username` or `email` maps to
the field-specific message, anything else to the generic fallback. -/
def userErrorMessage (fallback : String) : SqlError → String
  | .uniqueViolation c =>
      if jsIncludes c "username" then "Username already exists"
      else if jsIncludes c "email" then "Email already exists"
      else fallback
  | .otherFailure => fallback

/-- The `INSERT INTO users ... RETURNING ...` statement: raises a
unique-constraint violation on a duplicate username or email, otherwise
appends the new row (status defaults to true, timestamps to now). -/
def dbInsertUser (now : Nat) (newId : String) (username email role password : String)
    (db : DbState) : Except SqlError DbState :=
  if db.fail then .error .otherFailure
  else if db.users.any (fun r => r.username == username) then
    .error (.uniqueViolation "users_username_key")
  else if db.users.any (fun r => r.email == email) then
    .error (.uniqueViolation "users_email_key")
  else
    .ok { db with users := db.users ++
      [{ uuid := newId, username := username, email := email, role := role,
         password := password, status := true, created_at := now, updated_at := now }] }

/-- Handler `POST /api/users`. -/
def createUser (now : Nat) (newId : String) (req : CreateUserRequest) (db : DbState) :
    ApiResp × DbState :=
  if strFalsy req.username || strFalsy req.email || strFalsy req.password then
    (errResp 400 "Username, email, and password are required", db)
  else
    match dbInsertUser now newId (req.username.getD "") (req.email.getD "")
        (orFalsy req.role "user") (req.password.getD "") db with
    | .error e => (errResp 400 (userErrorMessage "Failed to create user" e), db)
    | .ok db2 => (createdResp "User created successfully", db2)

/-- Handler `PUT /api/users/:id`. -/
def updateUser (now : Nat) (id : String) (u : UpdateUserRequest) (db : DbState) :
    ApiResp × DbState :=
  if u.fieldCount == 0 then (errResp 400 "No fields to update", db)
  else
    match dbUpdateUsers now id u db with
    | .error e => (errResp 400 (userErrorMessage "Failed to update user" e), db)
    | .ok (table, returned) =>
        if returned.isEmpty then (errResp 404 "User not found", db)
        else (okResp "User updated successfully", { db with users := table })

/-- Handler `DELETE /api/users/:id`: existence check first, then the
delete, whose foreign-key cascade removes the join rows of the user. -/
def deleteUser (id : String) (db : DbState) : ApiResp × DbState :=
  if db.fail then (errResp 500 "Failed to delete user", db)
  else if (db.users.filter (fun r => r.uuid == id)).isEmpty then
    (errResp 404 "User not found", db)
  else
    (okResp "User deleted successfully",
     { db with users := db.users.filter (fun r => r.uuid != id),
               relation_group_user := db.relation_group_user.filter (fun r => r.user_id != id) })

/-! ### Groups -/

/-- The `CreateGroupRequest` body. -/
structure CreateGroupRequest where
  name : Option String
  description : Option String
deriving DecidableEq, Repr

/-- The sparse `UpdateGroupRequest` body. -/
structure UpdateGroupRequest where
  name : Option String
  description : Option String
deriving DecidableEq, Repr

/-- Number of fields present in the group update body. -/
def UpdateGroupRequest.fieldCount (u : UpdateGroupRequest) : Nat :=
  (if u.name.isSome then 1 else 0) + (if u.description.isSome then 1 else 0)

/-- Applies the present fields of a group update to a stored row. -/
def applyGroupUpdate (now : Nat) (u : UpdateGroupRequest) (r : GroupRow) : GroupRow :=
  { r with
    name := u.name.getD r.name
    description := match u.description with | some v => some v | none => r.description
    updated_at := now }

/-- The `UPDATE groups ...` statement, raising on a duplicate name. -/
def dbUpdateGroups (now : Nat) (id : String) (u : UpdateGroupRequest) (db : DbState) :
    Except SqlError (List GroupRow × List GroupRow) :=
  if db.fail then .error .otherFailure
  else if (db.groups.filter (fun r => r.uuid == id)).isEmpty then .ok (db.groups, [])
  else if u.name.any (fun v => db.groups.any (fun r => r.uuid != id && r.name == v)) then
    .error (.uniqueViolation "groups_name_key")
  else
    .ok (db.groups.map (fun r => if r.uuid == id then applyGroupUpdate now u r else r),
         (db.groups.filter (fun r => r.uuid == id)).map (applyGroupUpdate now u))

/-- The catch-block translation used by the group handlers: any 23505 is
reported as a duplicate group name. -/
def groupErrorMessage (fallback : String) : SqlError → String
  | .uniqueViolation _ => "Group name already exists"
  | .otherFailure => fallback

/-- The `INSERT INTO groups ... RETURNING ...` statement. -/
def dbInsertGroup (now : Nat) (newId : String) (name : String) (description : Option String)
    (db : DbState) : Except SqlError DbState :=
  if db.fail then .error .otherFailure
  else if db.groups.any (fun r => r.name == name) then
    .error (.uniqueViolation "groups_name_key")
  else
    .ok { db with groups := db.groups ++
      [{ uuid := newId, name := name, description := description,
         created_at := now, updated_at := now }] }

/-- Handler `POST /api/groups`. -/
def createGroup (now : Nat) (newId : String) (req : CreateGroupRequest) (db : DbState) :
    ApiResp × DbState :=
  if strFalsy req.name then (errResp 400 "Group name is required", db)
  else
    match dbInsertGroup now newId (req.name.getD "") (orNull req.description) db with
    | .error e => (errResp 400 (groupErrorMessage "Failed to create group" e), db)
    | .ok db2 => (createdResp "Group created successfully", db2)

/-- Handler `PUT /api/groups/:id`. -/
def updateGroup (now : Nat) (id : String) (u : UpdateGroupRequest) (db : DbState) :
    ApiResp × DbState :=
  if u.fieldCount == 0 then (errResp 400 "No fields to update", db)
  else
    match dbUpdateGroups now id u db with
    | .error e => (errResp 400 (groupErrorMessage "Failed to update group" e), db)
    | .ok (table, returned) =>
        if returned.isEmpty then (errResp 404 "Group not found", db)
        else (okResp "Group updated successfully", { db with groups := table })

/-! ### Events -/

/-- The `CreateEventRequest` body; time fields carry the parsed timestamp
of the supplied date string. -/
structure CreateEventRequest where
  name : Option String
  description : Option String
  time_start : Option Nat
  time_end : Option Nat
  status : Option String
deriving DecidableEq, Repr

/-- The sparse `UpdateEventRequest` body. -/
structure UpdateEventRequest where
  name : Option String
  description : Option String
  time_start : Option Nat
  time_end : Option Nat
  status : Option String
deriving DecidableEq, Repr

/-- Number of fields present in the event update body. -/
def UpdateEventRequest.fieldCount (u : UpdateEventRequest) : Nat :=
  (if u.name.isSome then 1 else 0) + (if u.description.isSome then 1 else 0) +
  (if u.time_start.isSome then 1 else 0) + (if u.time_end.isSome then 1 else 0) +
  (if u.status.isSome then 1 else 0)

/-- Applies the present fields of an event update to a stored row. -/
def applyEventUpdate (now : Nat) (u : UpdateEventRequest) (r : EventRow) : EventRow :=
  { r with
    name := u.name.getD r.name
    description := match u.description with | some v => some v | none => r.description
    time_start := u.time_start.getD r.time_start
    time_end := u.time_end.getD r.time_end
    status := u.status.getD r.status
    updated_at := now }

/-- Handler `POST /api/events`: presence check, then the time-ordering
check, then the insert (whose only failure mode is a storage error,
answered 400 by the catch block). -/
def createEvent (now : Nat) (newId : String) (req : CreateEventRequest) (db : DbState) :
    ApiResp × DbState :=
  if strFalsy req.name || natFalsy req.time_start || natFalsy req.time_end then
    (errResp 400 "Name, start time, and end time are required", db)
  else if req.time_end.getD 0 ≤ req.time_start.getD 0 then
    (errResp 400 "End time must be after start time", db)
  else if db.fail then (errResp 400 "Failed to create event", db)
  else
    (createdResp "Event created successfully",
     { db with events := db.events ++
       [{ uuid := newId, name := req.name.getD "", description := orNull req.description,
          time_start := req.time_start.getD 0, time_end := req.time_end.getD 0,
          status := orFalsy req.status "scheduled", created_at := now, updated_at := now }] })

/-- Handler `PUT /api/events/:id`: the time-ordering check runs only when
both time fields are present in the body. -/
def updateEvent (now : Nat) (id : String) (u : UpdateEventRequest) (db : DbState) :
    ApiResp × DbState :=
  if u.time_start.isSome && u.time_end.isSome &&
      decide (u.time_end.getD 0 ≤ u.time_start.getD 0) then
    (errResp 400 "End time must be after start time", db)
  else if u.fieldCount == 0 then (errResp 400 "No fields to update", db)
  else if db.fail then (errResp 400 "Failed to update event", db)
  else if (db.events.filter (fun r => r.uuid == id)).isEmpty then
    (errResp 404 "Event not found", db)
  else
    (okResp "Event updated successfully",
     { db with events := db.events.map (fun r => if r.uuid == id then applyEventUpdate now u r else r) })

/-- Handler `DELETE /api/events/:id`. -/
def deleteEvent (id : String) (db : DbState) : ApiResp × DbState :=
  if db.fail then (errResp 500 "Failed to delete event", db)
  else if (db.events.filter (fun r => r.uuid == id)).isEmpty then
    (errResp 404 "Event not found", db)
  else
    (okResp "Event deleted successfully",
     { db with events := db.events.filter (fun r => r.uuid != id),
               relation_group_event := db.relation_group_event.filter (fun r => r.event_id != id),
               relation_event_survey := db.relation_event_survey.filter (fun r => r.event_id != id) })

/-! ### Surveys -/

/-- A request-body value for the survey `form` field: either a JSON object
(carrying its serialization) or a non-object JSON value, which the
`typeof` validation rejects. -/
inductive FormValue where
  | jsonObject (payload : String)
  | nonObject (payload : String)
deriving DecidableEq, Repr

/-- Whether the value passes the `typeof form` check. -/
def FormValue.isObjectVal : FormValue → Bool
  | .jsonObject _ => true
  | .nonObject _ => false

/-- The `JSON.stringify` serialization stored in the `form` column. -/
def FormValue.stringify : FormValue → String
  | .jsonObject p => p
  | .nonObject p => p

/-- The `CreateSurveyRequest` body. -/
structure CreateSurveyRequest where
  name : Option String
  form : Option FormValue
  set_point : Option String
  status : Option String
deriving DecidableEq, Repr

/-- The sparse `UpdateSurveyRequest` body. -/
structure UpdateSurveyRequest where
  name : Option String
  form : Option FormValue
  set_point : Option String
  status : Option String
deriving DecidableEq, Repr

/-- Number of fields present in the survey update body. -/
def UpdateSurveyRequest.fieldCount (u : UpdateSurveyRequest) : Nat :=
  (if u.name.isSome then 1 else 0) + (if u.form.isSome then 1 else 0) +
  (if u.set_point.isSome then 1 else 0) + (if u.status.isSome then 1 else 0)

/-- Applies the present fields of a survey update to a stored row; the
form field is stored stringified. -/
def applySurveyUpdate (now : Nat) (u : UpdateSurveyRequest) (r : SurveyRow) : SurveyRow :=
  { r with
    name := u.name.getD r.name
    form := (u.form.map FormValue.stringify).getD r.form
    set_point := match u.set_point with | some v => some v | none => r.set_point
    status := u.status.getD r.status
    updated_at := now }

/-- Handler `POST /api/surveys`. -/
def createSurvey (now : Nat) (newId : String) (req : CreateSurveyRequest) (db : DbState) :
    ApiResp × DbState :=
  if strFalsy req.name || req.form.isNone then
    (errResp 400 "Name and form are required", db)
  else if req.form.any (fun f => !f.isObjectVal) then
    (errResp 400 "Form must be a valid JSON object", db)
  else if db.fail then (errResp 400 "Failed to create survey", db)
  else
    (createdResp "Survey created successfully",
     { db with surveys := db.surveys ++
       [{ uuid := newId, name := req.name.getD "",
          form := (req.form.map FormValue.stringify).getD "",
          set_point := orNull req.set_point, status := orFalsy req.status "active",
          created_at := now, updated_at := now }] })

/-- Handler `PUT /api/surveys/:id`: the form validation runs before the
empty-body check, exactly as in the source. -/
def updateSurvey (now : Nat) (id : String) (u : UpdateSurveyRequest) (db : DbState) :
    ApiResp × DbState :=
  if u.form.any (fun f => !f.isObjectVal) then
    (errResp 400 "Form must be a valid JSON object", db)
  else if u.fieldCount == 0 then (errResp 400 "No fields to update", db)
  else if db.fail then (errResp 400 "Failed to update survey", db)
  else if (db.surveys.filter (fun r => r.uuid == id)).isEmpty then
    (errResp 404 "Survey not found", db)
  else
    (okResp "Survey updated successfully",
     { db with surveys := db.surveys.map (fun r => if r.uuid == id then applySurveyUpdate now u r else r) })

/-! ### Relationship handlers -/

/-- Handler `POST /api/users/group`: validation first; the insert uses
`ON CONFLICT (user_id, group_id) DO NOTHING`, and referencing a missing
user or group raises a foreign-key error answered with 500. -/
def addUserToGroup (userId groupId : Option String) (db : DbState) : ApiResp × DbState :=
  if strFalsy userId || strFalsy groupId then
    (errResp 400 "User ID and Group ID are required", db)
  else if db.fail then (errResp 500 "Failed to add user to group", db)
  else
    let uid := userId.getD ""
    let gid := groupId.getD ""
    if db.relation_group_user.any (fun r => r.user_id == uid && r.group_id == gid) then
      (okResp "User added to group successfully", db)
    else if !(db.users.any (fun r => r.uuid == uid)) || !(db.groups.any (fun g => g.uuid == gid)) then
      (errResp 500 "Failed to add user to group", db)
    else
      (okResp "User added to group successfully",
       { db with relation_group_user := db.relation_group_user ++ [{ user_id := uid, group_id := gid }] })

/-- Handler `DELETE /api/users/group`: the delete is unconditional. -/
def removeUserFromGroup (userId groupId : Option String) (db : DbState) : ApiResp × DbState :=
  if strFalsy userId || strFalsy groupId then
    (errResp 400 "User ID and Group ID are required", db)
  else if db.fail then (errResp 500 "Failed to remove user from group", db)
  else
    (okResp "User removed from group successfully",
     { db with relation_group_user := (db.relation_group_user.filter
         (fun r => !(r.user_id == userId.getD "" && r.group_id == groupId.getD ""))) })

/-- Handler `POST /api/events/group`. -/
def addEventToGroup (eventId groupId : Option String) (db : DbState) : ApiResp × DbState :=
  if strFalsy eventId || strFalsy groupId then
    (errResp 400 "Event ID and Group ID are required", db)
  else if db.fail then (errResp 500 "Failed to add event to group", db)
  else
    let eid := eventId.getD ""
    let gid := groupId.getD ""
    if db.relation_group_event.any (fun r => r.event_id == eid && r.group_id == gid) then
      (okResp "Event added to group successfully", db)
    else if !(db.events.any (fun r => r.uuid == eid)) || !(db.groups.any (fun g => g.uuid == gid)) then
      (errResp 500 "Failed to add event to group", db)
    else
      (okResp "Event added to group successfully",
       { db with relation_group_event := db.relation_group_event ++ [{ event_id := eid, group_id := gid }] })

/-- Handler `DELETE /api/events/group`. -/
def removeEventFromGroup (eventId groupId : Option String) (db : DbState) : ApiResp × DbState :=
  if strFalsy eventId || strFalsy groupId then
    (errResp 400 "Event ID and Group ID are required", db)
  else if db.fail then (errResp 500 "Failed to remove event from group", db)
  else
    (okResp "Event removed from group successfully",
     { db with relation_group_event := (db.relation_group_event.filter
         (fun r => !(r.event_id == eventId.getD "" && r.group_id == groupId.getD ""))) })

/-- Handler `POST /api/surveys/event`: the conflict target is the
(survey_id, event_id) pair, so an existing pair is left untouched even
when a different `file_final` is supplied. -/
def addSurveyToEvent (surveyId eventId fileFinal : Option String) (db : DbState) :
    ApiResp × DbState :=
  if strFalsy surveyId || strFalsy eventId then
    (errResp 400 "Survey ID and Event ID are required", db)
  else if db.fail then (errResp 500 "Failed to add survey to event", db)
  else
    let sid := surveyId.getD ""
    let eid := eventId.getD ""
    if db.relation_event_survey.any (fun r => r.survey_id == sid && r.event_id == eid) then
      (okResp "Survey added to event successfully", db)
    else if !(db.surveys.any (fun r => r.uuid == sid)) || !(db.events.any (fun e => e.uuid == eid)) then
      (errResp 500 "Failed to add survey to event", db)
    else
      (okResp "Survey added to event successfully",
       { db with relation_event_survey := db.relation_event_survey ++
           [{ survey_id := sid, event_id := eid, file_final := orNull fileFinal }] })

/-- Handler `DELETE /api/surveys/event`. -/
def removeSurveyFromEvent (surveyId eventId : Option String) (db : DbState) : ApiResp × DbState :=
  if strFalsy surveyId || strFalsy eventId then
    (errResp 400 "Survey ID and Event ID are required", db)
  else if db.fail then (errResp 500 "Failed to remove survey from event", db)
  else
    (okResp "Survey removed from event successfully",
     { db with relation_event_survey := (db.relation_event_survey.filter
         (fun r => !(r.survey_id == surveyId.getD "" && r.event_id == eventId.getD ""))) })

/-! ### List endpoints -/

/-- The pagination block of the list envelope. -/
structure Pagination where
  page : Nat
  limit : Nat
  total : Nat
  totalPages : Nat
deriving DecidableEq, Repr

/-- Model of `Math.ceil(total / limit)` on the integral counts involved. -/
def ceilDiv (total limit : Nat) : Nat := (total + limit - 1) / limit

/-- A user item of the list payload: the row with its aggregated groups. -/
structure UserListItem where
  user : UserRow
  groups : List GroupRow
deriving DecidableEq, Repr

/-- An event item of the list payload: the row with its aggregated groups. -/
structure EventListItem where
  event : EventRow
  groups : List GroupRow
deriving DecidableEq, Repr

/-- The list envelope of `GET /api/users`, with its HTTP status. -/
structure UsersListResult where
  status : Nat
  success : Bool
  error : Option String
  data : List UserListItem
  pagination : Option Pagination
deriving DecidableEq, Repr

/-- The list envelope of `GET /api/events`, with its HTTP status. -/
structure EventsListResult where
  status : Nat
  success : Bool
  error : Option String
  data : List EventListItem
  pagination : Option Pagination
deriving DecidableEq, Repr

/-- The WHERE clause built by `getUsers`, applied identically to the data
query and the count query: optional case-insensitive search on username
or email, optional exact role filter, and the status filter coerced by
string comparison with the literal `active`. -/
def userMatches (search role status : String) (u : UserRow) : Bool :=
  (search == "" || sqlILike u.username search || sqlILike u.email search) &&
  (role == "" || role == "all" || u.role == role) &&
  (status == "" || status == "all" || u.status == (status == "active"))

/-- The parallel `COUNT` query of `getUsers`. -/
def countUsers (search role status : String) (db : DbState) : Nat :=
  (db.users.filter (userMatches search role status)).length

/-- The `json_agg` aggregation of the groups joined to one user. -/
def groupsOfUser (db : DbState) (uid : String) : List GroupRow :=
  (db.relation_group_user.filter (fun r => r.user_id == uid)).flatMap
    (fun r => db.groups.filter (fun g => g.uuid == r.group_id))

/-- Handler `GET /api/users`: filter, order by `created_at` descending,
then apply `LIMIT limit OFFSET (page - 1) * limit`; `page` and `limit`
model the parsed query parameters after their `|| default` coercion. -/
def getUsers (page limit : Nat) (search role status : String) (db : DbState) :
    UsersListResult :=
  if db.fail then
    { status := 500, success := false, error := some "Failed to fetch users",
      data := [], pagination := none }
  else
    let filtered := db.users.filter (userMatches search role status)
    let sorted := filtered.insertionSort (fun a b => b.created_at ≤ a.created_at)
    let pageRows := (sorted.drop ((page - 1) * limit)).take limit
    { status := 200, success := true, error := none,
      data := pageRows.map (fun u => { user := u, groups := groupsOfUser db u.uuid }),
      pagination := some
        { page := page, limit := limit, total := countUsers search role status db,
          totalPages := ceilDiv (countUsers search role status db) limit } }

/-- The WHERE clause built by `getEvents`: optional case-insensitive
search on name or description, optional exact status filter. -/
def eventMatches (search status : String) (e : EventRow) : Bool :=
  (search == "" || sqlILike e.name search || sqlILikeOpt e.description search) &&
  (status == "" || status == "all" || e.status == status)

/-- The parallel `COUNT` query of `getEvents`. -/
def countEvents (search status : String) (db : DbState) : Nat :=
  (db.events.filter (eventMatches search status)).length

/-- The `json_agg` aggregation of the groups joined to one event. -/
def groupsOfEvent (db : DbState) (eid : String) : List GroupRow :=
  (db.relation_group_event.filter (fun r => r.event_id == eid)).flatMap
    (fun r => db.groups.filter (fun g => g.uuid == r.group_id))

/-- Handler `GET /api/events`: filter, order by `time_start` descending,
then paginate. -/
def getEvents (page limit : Nat) (search status : String) (db : DbState) :
    EventsListResult :=
  if db.fail then
    { status := 500, success := false, error := some "Failed to fetch events",
      data := [], pagination := none }
  else
    let filtered := db.events.filter (eventMatches search status)
    let sorted := filtered.insertionSort (fun a b => b.time_start ≤ a.time_start)
    let pageRows := (sorted.drop ((page - 1) * limit)).take limit
    { status := 200, success := true, error := none,
      data := pageRows.map (fun e => { event := e, groups := groupsOfEvent db e.uuid }),
      pagination := some
        { page := page, limit := limit, total := countEvents search status db,
          totalPages := ceilDiv (countEvents search status db) limit } }

/-! ### Schema migration -/

/-- A foreign-key clause of a column definition. -/
structure ForeignKey where
  column : String
  refTable : String
  onDeleteCascade : Bool
deriving DecidableEq, Repr

/-- A table definition as issued by one `CREATE TABLE IF NOT EXISTS`
statement of `createTables`. -/
structure TableDef where
  name : String
  columns : List String
  uniqueColumns : List String
  uniquePairs : List (String × String)
  foreignKeys : List ForeignKey
deriving DecidableEq, Repr

/-- An index definition as issued by one `CREATE INDEX IF NOT EXISTS`
statement. -/
structure IndexDef where
  name : String
  table : String
  column : String
deriving DecidableEq, Repr

/-- The persisted schema: its tables and its indexes. -/
structure Schema where
  tables : List TableDef
  indexes : List IndexDef
deriving DecidableEq, Repr

/-- The eight `CREATE TABLE IF NOT EXISTS` statements of `createTables`,
in issue order. -/
def createTablesStatements : List TableDef :=
  [{ name := "users",
     columns := ["uuid", "username", "email", "role", "password", "status", "created_at", "updated_at"],
     uniqueColumns := ["username", "email"], uniquePairs := [], foreignKeys := [] },
   { name := "groups",
     columns := ["uuid", "name", "description", "created_at", "updated_at"],
     uniqueColumns := ["name"], uniquePairs := [], foreignKeys := [] },
   { name := "events",
     columns := ["uuid", "name", "description", "time_start", "time_end", "status", "created_at", "updated_at"],
     uniqueColumns := [], uniquePairs := [], foreignKeys := [] },
   { name := "surveys",
     columns := ["uuid", "name", "form", "set_point", "status", "created_at", "updated_at"],
     uniqueColumns := [], uniquePairs := [], foreignKeys := [] },
   { name := "relation_group_user",
     columns := ["uuid", "group_id", "user_id", "created_at"],
     uniqueColumns := [], uniquePairs := [("group_id", "user_id")],
     foreignKeys := [{ column := "group_id", refTable := "groups", onDeleteCascade := true },
                     { column := "user_id", refTable := "users", onDeleteCascade := true }] },
   { name := "relation_group_event",
     columns := ["uuid", "group_id", "event_id", "created_at"],
     uniqueColumns := [], uniquePairs := [("group_id", "event_id")],
     foreignKeys := [{ column := "group_id", refTable := "groups", onDeleteCascade := true },
                     { column := "event_id", refTable := "events", onDeleteCascade := true }] },
   { name := "relation_group_eventsurvey",
     columns := ["uuid", "group_id", "event_survey_id", "created_at"],
     uniqueColumns := [], uniquePairs := [],
     foreignKeys := [{ column := "group_id", refTable := "groups", onDeleteCascade := true }] },
   { name := "relation_event_survey",
     columns := ["uuid", "event_id", "survey_id", "file_final", "created_at"],
     uniqueColumns := [], uniquePairs := [("event_id", "survey_id")],
     foreignKeys := [{ column := "event_id", refTable := "events", onDeleteCascade := true },
                     { column := "survey_id", refTable := "surveys", onDeleteCascade := true }] }]

/-- The seven `CREATE INDEX IF NOT EXISTS` statements of `createTables`. -/
def createIndexStatements : List IndexDef :=
  [{ name := "idx_users_email", table := "users", column := "email" },
   { name := "idx_users_username", table := "users", column := "username" },
   { name := "idx_groups_name", table := "groups", column := "name" },
   { name := "idx_events_status", table := "events", column := "status" },
   { name := "idx_surveys_status", table := "surveys", column := "status" },
   { name := "idx_relation_group_user_group", table := "relation_group_user", column := "group_id" },
   { name := "idx_relation_group_user_user", table := "relation_group_user", column := "user_id" }]

/-- One `IF NOT EXISTS` creation step: the object is added only when no
object of the same name is already present. -/
def ensureNamed (key : α → String) (s : List α) (t : α) : List α :=
  if s.any (fun u => key u == key t) then s else s ++ [t]

/-- The `createTables` migration run against an existing schema: every
DDL statement is `IF NOT EXISTS`, so each table and index is created only
when absent. -/
def createTables (s : Schema) : Schema :=
  { tables := createTablesStatements.foldl (ensureNamed TableDef.name) s.tables,
    indexes := createIndexStatements.foldl (ensureNamed IndexDef.name) s.indexes }

/-- Whether a table is a join table in the sense of the glossary: it
records a relationship through a pair of foreign keys. -/
def TableDef.isJoinTable (t : TableDef) : Bool := 2 ≤ t.foreignKeys.length

/-- Whether a table carries a uniqueness constraint exactly on the pair
of its foreign-key columns. -/
def TableDef.pairUniqueOnFKs (t : TableDef) : Bool :=
  t.uniquePairs.any (fun p =>
    [p.1, p.2] == t.foreignKeys.map ForeignKey.column ||
    [p.2, p.1] == t.foreignKeys.map ForeignKey.column)

/-- Whether every foreign key of the table cascades on delete. -/
def TableDef.allFKsCascade (t : TableDef) : Bool :=
  t.foreignKeys.all ForeignKey.onDeleteCascade

/-! ### Shared lemmas -/

/-- Membership in a page of a sorted list implies membership in the
underlying list. -/
theorem mem_of_mem_paged {α : Type} {l : List α} {r : α → α → Prop} [DecidableRel r]
    {off lim : Nat} {x : α} (h : x ∈ ((l.insertionSort r).drop off).take lim) : x ∈ l :=
  (List.mem_insertionSort r).1 (List.drop_subset off _ (List.take_subset lim _ h))

/-- A page whose offset is at least the list length is empty. -/
theorem paged_nil {α : Type} (l : List α) (r : α → α → Prop) [DecidableRel r]
    (off lim : Nat) (h : l.length ≤ off) : ((l.insertionSort r).drop off).take lim = [] := by
  have h2 : (l.insertionSort r).length ≤ off := by
    rw [List.length_insertionSort]; exact h
  rw [List.drop_eq_nil_of_le h2, List.take_nil]

/-- The ceiling division dominates: `t ≤ ceilDiv t l * l` for positive `l`. -/
theorem le_ceilDiv_mul (t l : Nat) (hl : 1 ≤ l) : t ≤ ceilDiv t l * l := by
  rcases Nat.eq_zero_or_pos t with ht | ht
  · subst ht; exact Nat.zero_le _
  · have h1 : t + l - 1 = (t - 1) + l := by omega
    unfold ceilDiv
    rw [h1, Nat.add_div_right _ (by omega : 0 < l), Nat.add_mul, Nat.one_mul,
      Nat.mul_comm ((t - 1) / l) l]
    have h2 := Nat.div_add_mod (t - 1) l
    have h3 : (t - 1) % l < l := Nat.mod_lt _ (by omega)
    obtain ⟨m, hm⟩ : ∃ m, l * ((t - 1) / l) = m := ⟨_, rfl⟩
    rw [hm]; rw [hm] at h2
    omega

/-- A page number strictly past the last page puts the offset past the
total. -/
theorem total_le_offset (t l p : Nat) (hl : 1 ≤ l) (h : ceilDiv t l < p) :
    t ≤ (p - 1) * l :=
  Nat.le_trans (le_ceilDiv_mul t l hl) (Nat.mul_le_mul_right l (by omega))

/-- Removing the matches of `p` from a list with no match of `p` changes
nothing. -/
theorem filter_not_of_any_false {α : Type} (p : α → Bool) (l : List α)
    (h : l.any p = false) : l.filter (fun x => !p x) = l := by
  apply List.filter_eq_self.2
  intro a ha
  have := List.any_eq_false.1 h a ha
  simp [this]

/-- `ensureNamed` preserves any `any` fact. -/
theorem any_ensureNamed {α : Type} (key : α → String) (s : List α) (t : α) (p : α → Bool)
    (h : s.any p = true) : (ensureNamed key s t).any p = true := by
  unfold ensureNamed
  split
  · exact h
  · rw [List.any_append, h, Bool.true_or]

/-- Folding `ensureNamed` preserves any `any` fact. -/
theorem any_foldl_ensureNamed {α : Type} (key : α → String) (ts : List α) (s : List α)
    (p : α → Bool) (h : s.any p = true) : (ts.foldl (ensureNamed key) s).any p = true := by
  induction ts generalizing s with
  | nil => exact h
  | cons a ts ih => exact ih _ (any_ensureNamed key s a p h)

/-- After `ensureNamed`, an object of the given name is present. -/
theorem any_self_ensureNamed {α : Type} (key : α → String) (s : List α) (t : α) :
    (ensureNamed key s t).any (fun u => key u == key t) = true := by
  unfold ensureNamed
  split
  · assumption
  · rw [List.any_append]
    simp

/-- After folding all creation statements, every statement name is
present. -/
theorem name_present_after_foldl {α : Type} (key : α → String) (ts : List α) (s : List α)
    (t : α) (h : t ∈ ts) :
    (ts.foldl (ensureNamed key) s).any (fun u => key u == key t) = true := by
  induction ts generalizing s with
  | nil => cases h
  | cons a ts ih =>
    rcases List.mem_cons.1 h with rfl | h2
    · exact any_foldl_ensureNamed key ts _ _ (any_self_ensureNamed key s t)
    · exact ih _ h2

/-- Folding creation statements whose names are all present is a no-op. -/
theorem foldl_ensureNamed_noop {α : Type} (key : α → String) (ts : List α) (s : List α)
    (h : ∀ t ∈ ts, s.any (fun u => key u == key t) = true) :
    ts.foldl (ensureNamed key) s = s := by
  induction ts with
  | nil => rfl
  | cons a ts ih =>
    have ha : ensureNamed key s a = s := by
      have := h a (List.mem_cons_self a ts)
      simp [ensureNamed, this]
    rw [List.foldl_cons, ha]
    exact ih (fun t ht => h t (List.mem_cons_of_mem a ht))

/-- Running the migration twice leaves the schema of the first run. -/
theorem createTables_idem (s : Schema) : createTables (createTables s) = createTables s := by
  have h1 : createTablesStatements.foldl (ensureNamed TableDef.name)
      (createTablesStatements.foldl (ensureNamed TableDef.name) s.tables) =
      createTablesStatements.foldl (ensureNamed TableDef.name) s.tables :=
    foldl_ensureNamed_noop _ _ _ (fun t ht => name_present_after_foldl _ _ _ t ht)
  have h2 : createIndexStatements.foldl (ensureNamed IndexDef.name)
      (createIndexStatements.foldl (ensureNamed IndexDef.name) s.indexes) =
      createIndexStatements.foldl (ensureNamed IndexDef.name) s.indexes :=
    foldl_ensureNamed_noop _ _ _ (fun t ht => name_present_after_foldl _ _ _ t ht)
  simp only [createTables]
  rw [h1, h2]

/-! ### Claim C4 -/

/-- C4: for every entity, an update request whose field set is empty is
answered 400 with the error `No fields to update` and leaves the stored
state unchanged; the database state is arbitrary (including a failing
storage layer), showing that no query reaches storage. -/
theorem empty_update_rejected :
    (∀ now id db, updateUser now id ⟨none, none, none, none⟩ db =
       (errResp 400 "No fields to update", db)) ∧
    (∀ now id db, updateGroup now id ⟨none, none⟩ db =
       (errResp 400 "No fields to update", db)) ∧
    (∀ now id db, updateEvent now id ⟨none, none, none, none, none⟩ db =
       (errResp 400 "No fields to update", db)) ∧
    (∀ now id db, updateSurvey now id ⟨none, none, none, none⟩ db =
       (errResp 400 "No fields to update", db)) :=
  ⟨fun _ _ _ => rfl, fun _ _ _ => rfl, fun _ _ _ => rfl, fun _ _ _ => rfl⟩

/-! ### Claim C9 -/

/-- C9: an event create whose end time is not strictly after its start
time is rejected 400 with exactly `End time must be after start time`,
and the state (hence the events table) is unchanged. -/
theorem event_create_time_validation (now : Nat) (newId : String) (req : CreateEventRequest)
    (db : DbState) (ts te : Nat) (hname : strFalsy req.name = false)
    (hts : req.time_start = some ts) (hte : req.time_end = some te) (hord : te ≤ ts) :
    createEvent now newId req db = (errResp 400 "End time must be after start time", db) := by
  unfold createEvent
  rw [hname, hts, hte]
  simp [natFalsy, hord]

/-- Witness for C9, at the times of the example scenario of the spec:
2024-01-01T10:00 and 2024-01-01T09:00 parse to the epoch seconds
1704103200 and 1704099600. -/
theorem event_create_time_validation_witness :
    createEvent 7 "e1"
      { name := some "Morning sync", description := none,
        time_start := some 1704103200, time_end := some 1704099600, status := none }
      emptyDb =
    (errResp 400 "End time must be after start time", emptyDb) :=
  event_create_time_validation 7 "e1"
    { name := some "Morning sync", description := none,
      time_start := some 1704103200, time_end := some 1704099600, status := none }
    emptyDb 1704103200 1704099600 rfl rfl rfl (by omega)

/-! ### Claim C6 -/

/-- C6: `createTables` creates exactly three join tables (tables holding
a pair of foreign keys, in the sense of the glossary of the spec) and
five other base tables; every join table carries a uniqueness constraint
on its foreign-key pair and cascade-delete foreign keys to both sides;
and the routine is idempotent on every starting schema. -/
theorem schema_tables_and_idempotence :
    ((createTablesStatements.filter (fun t => t.isJoinTable)).length = 3 ∧
     (createTablesStatements.filter (fun t => !t.isJoinTable)).length = 5) ∧
    (createTablesStatements.all
       (fun t => !t.isJoinTable || (t.pairUniqueOnFKs && t.allFKsCascade)) = true) ∧
    (∀ s : Schema, createTables (createTables s) = createTables s) :=
  ⟨by decide, by decide, createTables_idem⟩

/-! ### Claim C8 helper lemmas -/

/-- Adding a user-group link twice gives the state of adding it once. -/
theorem addUserToGroup_idem (db : DbState) (u g : Option String) :
    (addUserToGroup u g (addUserToGroup u g db).2).2 = (addUserToGroup u g db).2 := by
  unfold addUserToGroup
  cases hfg : (strFalsy u || strFalsy g) with
  | true => simp [hfg]
  | false =>
    cases hf : db.fail with
    | true => simp [hfg, hf]
    | false =>
      cases hp : db.relation_group_user.any
          (fun r => r.user_id == u.getD "" && r.group_id == g.getD "") with
      | true => simp [hfg, hf, hp]
      | false =>
        cases hfk : (!(db.users.any (fun r => r.uuid == u.getD "")) ||
            !(db.groups.any (fun g2 => g2.uuid == g.getD ""))) with
        | true => simp [hfg, hf, hp, hfk]
        | false => simp [hfg, hf, hp, hfk, List.any_append]

/-- Adding an already-linked user-group pair succeeds without change. -/
theorem addUserToGroup_existing (db : DbState) (u g : Option String)
    (hu : strFalsy u = false) (hg : strFalsy g = false) (hf : db.fail = false)
    (hp : db.relation_group_user.any
        (fun r => r.user_id == u.getD "" && r.group_id == g.getD "") = true) :
    addUserToGroup u g db = (okResp "User added to group successfully", db) := by
  unfold addUserToGroup
  simp [hu, hg, hf, hp]

/-- Removing an absent user-group pair succeeds without change. -/
theorem removeUserFromGroup_absent (db : DbState) (u g : Option String)
    (hu : strFalsy u = false) (hg : strFalsy g = false) (hf : db.fail = false)
    (hp : db.relation_group_user.any
        (fun r => r.user_id == u.getD "" && r.group_id == g.getD "") = false) :
    removeUserFromGroup u g db = (okResp "User removed from group successfully", db) := by
  unfold removeUserFromGroup
  simp only [hu, hg, hf, Bool.or_self, Bool.false_eq_true, if_false]
  rw [filter_not_of_any_false _ _ hp, ← hf]

/-- A user-group link or unlink call with a missing identifier is
rejected 400 without touching storage. -/
theorem userGroup_missing_id (db : DbState) (u g : Option String)
    (h : (strFalsy u || strFalsy g) = true) :
    addUserToGroup u g db = (errResp 400 "User ID and Group ID are required", db) ∧
    removeUserFromGroup u g db = (errResp 400 "User ID and Group ID are required", db) := by
  constructor
  · unfold addUserToGroup
    simp [h]
  · unfold removeUserFromGroup
    simp [h]

/-- Adding an event-group link twice gives the state of adding it once. -/
theorem addEventToGroup_idem (db : DbState) (e g : Option String) :
    (addEventToGroup e g (addEventToGroup e g db).2).2 = (addEventToGroup e g db).2 := by
  unfold addEventToGroup
  cases hfg : (strFalsy e || strFalsy g) with
  | true => simp [hfg]
  | false =>
    cases hf : db.fail with
    | true => simp [hfg, hf]
    | false =>
      cases hp : db.relation_group_event.any
          (fun r => r.event_id == e.getD "" && r.group_id == g.getD "") with
      | true => simp [hfg, hf, hp]
      | false =>
        cases hfk : (!(db.events.any (fun r => r.uuid == e.getD "")) ||
            !(db.groups.any (fun g2 => g2.uuid == g.getD ""))) with
        | true => simp [hfg, hf, hp, hfk]
        | false => simp [hfg, hf, hp, hfk, List.any_append]

/-- Adding an already-linked event-group pair succeeds without change. -/
theorem addEventToGroup_existing (db : DbState) (e g : Option String)
    (he : strFalsy e = false) (hg : strFalsy g = false) (hf : db.fail = false)
    (hp : db.relation_group_event.any
        (fun r => r.event_id == e.getD "" && r.group_id == g.getD "") = true) :
    addEventToGroup e g db = (okResp "Event added to group successfully", db) := by
  unfold addEventToGroup
  simp [he, hg, hf, hp]

/-- Removing an absent event-group pair succeeds without change. -/
theorem removeEventFromGroup_absent (db : DbState) (e g : Option String)
    (he : strFalsy e = false) (hg : strFalsy g = false) (hf : db.fail = false)
    (hp : db.relation_group_event.any
        (fun r => r.event_id == e.getD "" && r.group_id == g.getD "") = false) :
    removeEventFromGroup e g db = (okResp "Event removed from group successfully", db) := by
  unfold removeEventFromGroup
  simp only [he, hg, hf, Bool.or_self, Bool.false_eq_true, if_false]
  rw [filter_not_of_any_false _ _ hp, ← hf]

/-- An event-group link or unlink call with a missing identifier is
rejected 400 without touching storage. -/
theorem eventGroup_missing_id (db : DbState) (e g : Option String)
    (h : (strFalsy e || strFalsy g) = true) :
    addEventToGroup e g db = (errResp 400 "Event ID and Group ID are required", db) ∧
    removeEventFromGroup e g db = (errResp 400 "Event ID and Group ID are required", db) := by
  constructor
  · unfold addEventToGroup
    simp [h]
  · unfold removeEventFromGroup
    simp [h]

/-- Adding a survey-event link twice gives the state of adding it once. -/
theorem addSurveyToEvent_idem (db : DbState) (s e f : Option String) :
    (addSurveyToEvent s e f (addSurveyToEvent s e f db).2).2 = (addSurveyToEvent s e f db).2 := by
  unfold addSurveyToEvent
  cases hfg : (strFalsy s || strFalsy e) with
  | true => simp [hfg]
  | false =>
    cases hf : db.fail with
    | true => simp [hfg, hf]
    | false =>
      cases hp : db.relation_event_survey.any
          (fun r => r.survey_id == s.getD "" && r.event_id == e.getD "") with
      | true => simp [hfg, hf, hp]
      | false =>
        cases hfk : (!(db.surveys.any (fun r => r.uuid == s.getD "")) ||
            !(db.events.any (fun e2 => e2.uuid == e.getD ""))) with
        | true => simp [hfg, hf, hp, hfk]
        | false => simp [hfg, hf, hp, hfk, List.any_append]

/-- Adding an already-linked survey-event pair succeeds without change,
whatever `file_final` accompanies the call. -/
theorem addSurveyToEvent_existing (db : DbState) (s e f : Option String)
    (hs : strFalsy s = false) (he : strFalsy e = false) (hf : db.fail = false)
    (hp : db.relation_event_survey.any
        (fun r => r.survey_id == s.getD "" && r.event_id == e.getD "") = true) :
    addSurveyToEvent s e f db = (okResp "Survey added to event successfully", db) := by
  unfold addSurveyToEvent
  simp [hs, he, hf, hp]

/-- Removing an absent survey-event pair succeeds without change. -/
theorem removeSurveyFromEvent_absent (db : DbState) (s e : Option String)
    (hs : strFalsy s = false) (he : strFalsy e = false) (hf : db.fail = false)
    (hp : db.relation_event_survey.any
        (fun r => r.survey_id == s.getD "" && r.event_id == e.getD "") = false) :
    removeSurveyFromEvent s e db = (okResp "Survey removed from event successfully", db) := by
  unfold removeSurveyFromEvent
  simp only [hs, he, hf, Bool.or_self, Bool.false_eq_true, if_false]
  rw [filter_not_of_any_false _ _ hp, ← hf]

/-- A survey-event link or unlink call with a missing identifier is
rejected 400 without touching storage. -/
theorem surveyEvent_missing_id (db : DbState) (s e f : Option String)
    (h : (strFalsy s || strFalsy e) = true) :
    addSurveyToEvent s e f db = (errResp 400 "Survey ID and Event ID are required", db) ∧
    removeSurveyFromEvent s e db = (errResp 400 "Survey ID and Event ID are required", db) := by
  constructor
  · unfold addSurveyToEvent
    simp [h]
  · unfold removeSurveyFromEvent
    simp [h]

/-! ### Claim C8 -/

/-- C8: for each of the three relationship pairs, add-link is idempotent
(two identical calls leave the state of one; adding an existing pair is a
successful silent no-op), remove-link of a non-existent pair succeeds and
leaves the state unchanged, and a call missing either identifier is
rejected 400 without touching storage. -/
theorem relation_link_semantics :
    ((∀ db u g, (addUserToGroup u g (addUserToGroup u g db).2).2 = (addUserToGroup u g db).2) ∧
     (∀ db u g, strFalsy u = false → strFalsy g = false → db.fail = false →
        db.relation_group_user.any
          (fun r => r.user_id == u.getD "" && r.group_id == g.getD "") = true →
        addUserToGroup u g db = (okResp "User added to group successfully", db)) ∧
     (∀ db u g, strFalsy u = false → strFalsy g = false → db.fail = false →
        db.relation_group_user.any
          (fun r => r.user_id == u.getD "" && r.group_id == g.getD "") = false →
        removeUserFromGroup u g db = (okResp "User removed from group successfully", db)) ∧
     (∀ db u g, (strFalsy u || strFalsy g) = true →
        addUserToGroup u g db = (errResp 400 "User ID and Group ID are required", db) ∧
        removeUserFromGroup u g db = (errResp 400 "User ID and Group ID are required", db))) ∧
    ((∀ db e g, (addEventToGroup e g (addEventToGroup e g db).2).2 = (addEventToGroup e g db).2) ∧
     (∀ db e g, strFalsy e = false → strFalsy g = false → db.fail = false →
        db.relation_group_event.any
          (fun r => r.event_id == e.getD "" && r.group_id == g.getD "") = true →
        addEventToGroup e g db = (okResp "Event added to group successfully", db)) ∧
     (∀ db e g, strFalsy e = false → strFalsy g = false → db.fail = false →
        db.relation_group_event.any
          (fun r => r.event_id == e.getD "" && r.group_id == g.getD "") = false →
        removeEventFromGroup e g db = (okResp "Event removed from group successfully", db)) ∧
     (∀ db e g, (strFalsy e || strFalsy g) = true →
        addEventToGroup e g db = (errResp 400 "Event ID and Group ID are required", db) ∧
        removeEventFromGroup e g db = (errResp 400 "Event ID and Group ID are required", db))) ∧
    ((∀ db s e f, (addSurveyToEvent s e f (addSurveyToEvent s e f db).2).2 =
        (addSurveyToEvent s e f db).2) ∧
     (∀ db s e f, strFalsy s = false → strFalsy e = false → db.fail = false →
        db.relation_event_survey.any
          (fun r => r.survey_id == s.getD "" && r.event_id == e.getD "") = true →
        addSurveyToEvent s e f db = (okResp "Survey added to event successfully", db)) ∧
     (∀ db s e, strFalsy s = false → strFalsy e = false → db.fail = false →
        db.relation_event_survey.any
          (fun r => r.survey_id == s.getD "" && r.event_id == e.getD "") = false →
        removeSurveyFromEvent s e db = (okResp "Survey removed from event successfully", db)) ∧
     (∀ db s e f, (strFalsy s || strFalsy e) = true →
        addSurveyToEvent s e f db = (errResp 400 "Survey ID and Event ID are required", db) ∧
        removeSurveyFromEvent s e db = (errResp 400 "Survey ID and Event ID are required", db))) :=
  ⟨⟨addUserToGroup_idem, addUserToGroup_existing, removeUserFromGroup_absent,
    userGroup_missing_id⟩,
   ⟨addEventToGroup_idem, addEventToGroup_existing, removeEventFromGroup_absent,
    eventGroup_missing_id⟩,
   ⟨addSurveyToEvent_idem, addSurveyToEvent_existing, removeSurveyFromEvent_absent,
    surveyEvent_missing_id⟩⟩

/-! ### Claim C1 helper lemmas -/

/-- A successful user update rewrites exactly the requested fields of the
targeted row. -/
theorem updateUser_frame (now : Nat) (id : String) (u : UpdateUserRequest) (db : DbState)
    (hne : u.fieldCount ≠ 0) (hok : (updateUser now id u db).1.status = 200) :
    (updateUser now id u db).2 =
      { db with users := db.users.map (fun r => if r.uuid == id then
          { uuid := r.uuid, username := u.username.getD r.username,
            email := u.email.getD r.email, role := u.role.getD r.role,
            password := r.password, status := u.status.getD r.status,
            created_at := r.created_at, updated_at := now } else r) } := by
  have hne2 : (u.fieldCount == 0) = false := by simpa using hne
  unfold updateUser at hok ⊢
  rw [hne2] at hok ⊢
  simp only [Bool.false_eq_true, if_false] at hok ⊢
  rcases hdb : dbUpdateUsers now id u db with e | ⟨table, returned⟩ <;> rw [hdb] at hok <;>
    simp only [] at hok ⊢
  · simp [errResp] at hok
  · cases returned with
    | nil => simp [errResp] at hok
    | cons r0 rs =>
      simp only [List.isEmpty_cons, Bool.false_eq_true, if_false] at hok ⊢
      unfold dbUpdateUsers at hdb
      cases hf : db.fail
      · rw [hf] at hdb
        simp only [Bool.false_eq_true, if_false] at hdb
        cases hm : (db.users.filter (fun r => r.uuid == id)).isEmpty
        · rw [hm] at hdb
          simp only [Bool.false_eq_true, if_false] at hdb
          cases hu1 : u.username.any
              (fun v => db.users.any (fun r => r.uuid != id && r.username == v))
          · rw [hu1] at hdb
            simp only [Bool.false_eq_true, if_false] at hdb
            cases hu2 : u.email.any
                (fun v => db.users.any (fun r => r.uuid != id && r.email == v))
            · rw [hu2] at hdb
              simp only [Bool.false_eq_true, if_false] at hdb
              rw [Except.ok.injEq, Prod.mk.injEq] at hdb
              rw [← hdb.1]
              rfl
            · rw [hu2] at hdb
              simp at hdb
          · rw [hu1] at hdb
            simp at hdb
        · rw [hm] at hdb
          simp at hdb
      · rw [hf] at hdb
        simp at hdb

/-- A successful group update rewrites exactly the requested fields of
the targeted row. -/
theorem updateGroup_frame (now : Nat) (id : String) (u : UpdateGroupRequest) (db : DbState)
    (hne : u.fieldCount ≠ 0) (hok : (updateGroup now id u db).1.status = 200) :
    (updateGroup now id u db).2 =
      { db with groups := db.groups.map (fun r => if r.uuid == id then
          { uuid := r.uuid, name := u.name.getD r.name,
            description := match u.description with | some v => some v | none => r.description,
            created_at := r.created_at, updated_at := now } else r) } := by
  have hne2 : (u.fieldCount == 0) = false := by simpa using hne
  unfold updateGroup at hok ⊢
  rw [hne2] at hok ⊢
  simp only [Bool.false_eq_true, if_false] at hok ⊢
  rcases hdb : dbUpdateGroups now id u db with e | ⟨table, returned⟩ <;> rw [hdb] at hok <;>
    simp only [] at hok ⊢
  · simp [errResp] at hok
  · cases returned with
    | nil => simp [errResp] at hok
    | cons r0 rs =>
      simp only [List.isEmpty_cons, Bool.false_eq_true, if_false] at hok ⊢
      unfold dbUpdateGroups at hdb
      cases hf : db.fail
      · rw [hf] at hdb
        simp only [Bool.false_eq_true, if_false] at hdb
        cases hm : (db.groups.filter (fun r => r.uuid == id)).isEmpty
        · rw [hm] at hdb
          simp only [Bool.false_eq_true, if_false] at hdb
          cases hu1 : u.name.any
              (fun v => db.groups.any (fun r => r.uuid != id && r.name == v))
          · rw [hu1] at hdb
            simp only [Bool.false_eq_true, if_false] at hdb
            rw [Except.ok.injEq, Prod.mk.injEq] at hdb
            rw [← hdb.1]
            rfl
          · rw [hu1] at hdb
            simp at hdb
        · rw [hm] at hdb
          simp at hdb
      · rw [hf] at hdb
        simp at hdb

/-- A successful event update rewrites exactly the requested fields of
the targeted row. -/
theorem updateEvent_frame (now : Nat) (id : String) (u : UpdateEventRequest) (db : DbState)
    (hne : u.fieldCount ≠ 0) (hok : (updateEvent now id u db).1.status = 200) :
    (updateEvent now id u db).2 =
      { db with events := db.events.map (fun r => if r.uuid == id then
          { uuid := r.uuid, name := u.name.getD r.name,
            description := match u.description with | some v => some v | none => r.description,
            time_start := u.time_start.getD r.time_start,
            time_end := u.time_end.getD r.time_end,
            status := u.status.getD r.status,
            created_at := r.created_at, updated_at := now } else r) } := by
  have hne2 : (u.fieldCount == 0) = false := by simpa using hne
  unfold updateEvent at hok ⊢
  cases hv : (u.time_start.isSome && u.time_end.isSome &&
      decide (u.time_end.getD 0 ≤ u.time_start.getD 0))
  · rw [hv] at hok
    simp only [Bool.false_eq_true, if_false] at hok ⊢
    rw [hne2] at hok ⊢
    simp only [Bool.false_eq_true, if_false] at hok ⊢
    cases hf : db.fail
    · rw [hf] at hok
      simp only [Bool.false_eq_true, if_false] at hok ⊢
      cases hm : (db.events.filter (fun r => r.uuid == id)).isEmpty
      · rw [hm] at hok
        simp only [Bool.false_eq_true, if_false] at hok ⊢
        rfl
      · rw [hm] at hok
        simp [errResp] at hok
    · rw [hf] at hok
      simp [errResp] at hok
  · rw [hv] at hok
    simp [errResp] at hok

/-- A successful survey update rewrites exactly the requested fields of
the targeted row. -/
theorem updateSurvey_frame (now : Nat) (id : String) (u : UpdateSurveyRequest) (db : DbState)
    (hne : u.fieldCount ≠ 0) (hok : (updateSurvey now id u db).1.status = 200) :
    (updateSurvey now id u db).2 =
      { db with surveys := db.surveys.map (fun r => if r.uuid == id then
          { uuid := r.uuid, name := u.name.getD r.name,
            form := (u.form.map FormValue.stringify).getD r.form,
            set_point := match u.set_point with | some v => some v | none => r.set_point,
            status := u.status.getD r.status,
            created_at := r.created_at, updated_at := now } else r) } := by
  have hne2 : (u.fieldCount == 0) = false := by simpa using hne
  unfold updateSurvey at hok ⊢
  cases hv : u.form.any (fun f => !f.isObjectVal)
  · rw [hv] at hok
    simp only [Bool.false_eq_true, if_false] at hok ⊢
    rw [hne2] at hok ⊢
    simp only [Bool.false_eq_true, if_false] at hok ⊢
    cases hf : db.fail
    · rw [hf] at hok
      simp only [Bool.false_eq_true, if_false] at hok ⊢
      cases hm : (db.surveys.filter (fun r => r.uuid == id)).isEmpty
      · rw [hm] at hok
        simp only [Bool.false_eq_true, if_false] at hok ⊢
        rfl
      · rw [hm] at hok
        simp [errResp] at hok
    · rw [hf] at hok
      simp [errResp] at hok
  · rw [hv] at hok
    simp [errResp] at hok

/-! ### Claim C1 -/

/-- C1: for every entity, a successful partial update whose field set is
non-empty writes exactly the fields present in the request and refreshes
`updated_at`; every other field of the targeted row, every other row, and
every other table keep their prior values. -/
theorem partial_update_preserves_unnamed_fields :
    (∀ (now : Nat) (id : String) (u : UpdateUserRequest) (db : DbState),
       u.fieldCount ≠ 0 → (updateUser now id u db).1.status = 200 →
       (updateUser now id u db).2 =
         { db with users := db.users.map (fun r => if r.uuid == id then
             { uuid := r.uuid, username := u.username.getD r.username,
               email := u.email.getD r.email, role := u.role.getD r.role,
               password := r.password, status := u.status.getD r.status,
               created_at := r.created_at, updated_at := now } else r) }) ∧
    (∀ (now : Nat) (id : String) (u : UpdateGroupRequest) (db : DbState),
       u.fieldCount ≠ 0 → (updateGroup now id u db).1.status = 200 →
       (updateGroup now id u db).2 =
         { db with groups := db.groups.map (fun r => if r.uuid == id then
             { uuid := r.uuid, name := u.name.getD r.name,
               description := match u.description with | some v => some v | none => r.description,
               created_at := r.created_at, updated_at := now } else r) }) ∧
    (∀ (now : Nat) (id : String) (u : UpdateEventRequest) (db : DbState),
       u.fieldCount ≠ 0 → (updateEvent now id u db).1.status = 200 →
       (updateEvent now id u db).2 =
         { db with events := db.events.map (fun r => if r.uuid == id then
             { uuid := r.uuid, name := u.name.getD r.name,
               description := match u.description with | some v => some v | none => r.description,
               time_start := u.time_start.getD r.time_start,
               time_end := u.time_end.getD r.time_end,
               status := u.status.getD r.status,
               created_at := r.created_at, updated_at := now } else r) }) ∧
    (∀ (now : Nat) (id : String) (u : UpdateSurveyRequest) (db : DbState),
       u.fieldCount ≠ 0 → (updateSurvey now id u db).1.status = 200 →
       (updateSurvey now id u db).2 =
         { db with surveys := db.surveys.map (fun r => if r.uuid == id then
             { uuid := r.uuid, name := u.name.getD r.name,
               form := (u.form.map FormValue.stringify).getD r.form,
               set_point := match u.set_point with | some v => some v | none => r.set_point,
               status := u.status.getD r.status,
               created_at := r.created_at, updated_at := now } else r) }) :=
  ⟨updateUser_frame, updateGroup_frame, updateEvent_frame, updateSurvey_frame⟩

/-- A two-user store used to witness C1. -/
def c1Db : DbState :=
  { emptyDb with users :=
      [{ uuid := "u1", username := "alice", email := "alice@example.com", role := "user",
         password := "pw1", status := true, created_at := 1, updated_at := 1 },
       { uuid := "u2", username := "bob", email := "bob@example.com", role := "admin",
         password := "pw2", status := true, created_at := 2, updated_at := 2 }] }

/-- Witness for C1: updating only role and status of one user rewrites
exactly those two fields plus `updated_at`, leaving the other user and
every other field intact. -/
theorem partial_update_preserves_unnamed_fields_witness :
    (updateUser 99 "u1"
      { username := none, email := none, role := some "moderator", status := some false }
      c1Db).2 =
    { c1Db with users :=
        [{ uuid := "u1", username := "alice", email := "alice@example.com", role := "moderator",
           password := "pw1", status := false, created_at := 1, updated_at := 99 },
         { uuid := "u2", username := "bob", email := "bob@example.com", role := "admin",
           password := "pw2", status := true, created_at := 2, updated_at := 2 }] } :=
  partial_update_preserves_unnamed_fields.1 99 "u1"
    { username := none, email := none, role := some "moderator", status := some false }
    c1Db (by decide) (by decide)

/-! ### Claim C2 helper lemmas -/

/-- Every item returned by `getUsers` satisfies the WHERE predicate. -/
theorem getUsers_data_matches (page limit : Nat) (search role status : String) (db : DbState)
    (hfail : db.fail = false) :
    ∀ item ∈ (getUsers page limit search role status db).data,
      userMatches search role status item.user = true := by
  intro item hitem
  unfold getUsers at hitem
  rw [hfail] at hitem
  simp only [Bool.false_eq_true, if_false] at hitem
  obtain ⟨x, hx, rfl⟩ := List.mem_map.1 hitem
  exact List.of_mem_filter (mem_of_mem_paged hx)

/-- The pagination block of `getUsers` reports the count-query total and
its ceiling page count. -/
theorem getUsers_pagination (page limit : Nat) (search role status : String) (db : DbState)
    (hfail : db.fail = false) :
    (getUsers page limit search role status db).pagination =
      some { page := page, limit := limit, total := countUsers search role status db,
             totalPages := ceilDiv (countUsers search role status db) limit } := by
  unfold getUsers
  rw [hfail]
  rfl

/-- A page number beyond the last page gives an empty item list. -/
theorem getUsers_beyond_last (page limit : Nat) (search role status : String) (db : DbState)
    (hfail : db.fail = false) (hl : 1 ≤ limit)
    (hp : ceilDiv (countUsers search role status db) limit < page) :
    (getUsers page limit search role status db).data = [] := by
  unfold getUsers
  rw [hfail]
  simp only [Bool.false_eq_true, if_false]
  have h1 : (db.users.filter (userMatches search role status)).length ≤ (page - 1) * limit :=
    total_le_offset _ _ _ hl hp
  rw [paged_nil _ _ _ _ h1, List.map_nil]

/-- Every item returned by `getEvents` satisfies the WHERE predicate. -/
theorem getEvents_data_matches (page limit : Nat) (search status : String) (db : DbState)
    (hfail : db.fail = false) :
    ∀ item ∈ (getEvents page limit search status db).data,
      eventMatches search status item.event = true := by
  intro item hitem
  unfold getEvents at hitem
  rw [hfail] at hitem
  simp only [Bool.false_eq_true, if_false] at hitem
  obtain ⟨x, hx, rfl⟩ := List.mem_map.1 hitem
  exact List.of_mem_filter (mem_of_mem_paged hx)

/-- The pagination block of `getEvents` reports the count-query total and
its ceiling page count. -/
theorem getEvents_pagination (page limit : Nat) (search status : String) (db : DbState)
    (hfail : db.fail = false) :
    (getEvents page limit search status db).pagination =
      some { page := page, limit := limit, total := countEvents search status db,
             totalPages := ceilDiv (countEvents search status db) limit } := by
  unfold getEvents
  rw [hfail]
  rfl

/-- A page number beyond the last page gives an empty event list. -/
theorem getEvents_beyond_last (page limit : Nat) (search status : String) (db : DbState)
    (hfail : db.fail = false) (hl : 1 ≤ limit)
    (hp : ceilDiv (countEvents search status db) limit < page) :
    (getEvents page limit search status db).data = [] := by
  unfold getEvents
  rw [hfail]
  simp only [Bool.false_eq_true, if_false]
  have h1 : (db.events.filter (eventMatches search status)).length ≤ (page - 1) * limit :=
    total_le_offset _ _ _ hl hp
  rw [paged_nil _ _ _ _ h1, List.map_nil]

/-! ### Claim C2 -/

/-- C2: every listed item matches the filter predicate, `total` equals the
number of stored rows matching the same predicate, `totalPages` is the
ceiling of `total / limit`, and a page beyond the last yields an empty
item list while the pagination block (total included) is unchanged. -/
theorem list_filter_pagination_correct :
    (∀ (page limit : Nat) (search role status : String) (db : DbState), db.fail = false →
       ((getUsers page limit search role status db).data.all
          (fun item => userMatches search role status item.user)) = true ∧
       (getUsers page limit search role status db).pagination =
         some { page := page, limit := limit, total := countUsers search role status db,
                totalPages := ceilDiv (countUsers search role status db) limit }) ∧
    (∀ (page limit : Nat) (search role status : String) (db : DbState), db.fail = false →
       1 ≤ limit → ceilDiv (countUsers search role status db) limit < page →
       (getUsers page limit search role status db).data = []) ∧
    (∀ (page limit : Nat) (search status : String) (db : DbState), db.fail = false →
       ((getEvents page limit search status db).data.all
          (fun item => eventMatches search status item.event)) = true ∧
       (getEvents page limit search status db).pagination =
         some { page := page, limit := limit, total := countEvents search status db,
                totalPages := ceilDiv (countEvents search status db) limit }) ∧
    (∀ (page limit : Nat) (search status : String) (db : DbState), db.fail = false →
       1 ≤ limit → ceilDiv (countEvents search status db) limit < page →
       (getEvents page limit search status db).data = []) :=
  ⟨fun page limit search role status db hfail =>
     ⟨List.all_eq_true.2 (getUsers_data_matches page limit search role status db hfail),
      getUsers_pagination page limit search role status db hfail⟩,
   getUsers_beyond_last,
   fun page limit search status db hfail =>
     ⟨List.all_eq_true.2 (getEvents_data_matches page limit search status db hfail),
      getEvents_pagination page limit search status db hfail⟩,
   getEvents_beyond_last⟩

/-- A store with two users and one event used to witness C2. -/
def c2Db : DbState :=
  { emptyDb with
    users :=
      [{ uuid := "u1", username := "alice", email := "alice@example.com", role := "user",
         password := "pw1", status := true, created_at := 1, updated_at := 1 },
       { uuid := "u2", username := "bob", email := "bob@example.com", role := "admin",
         password := "pw2", status := false, created_at := 2, updated_at := 2 }],
    events :=
      [{ uuid := "e1", name := "Launch", description := none, time_start := 10, time_end := 20,
         status := "scheduled", created_at := 3, updated_at := 3 }] }

/-- Witness for C2: a filtered user listing and an out-of-range event
page, at concrete inputs. -/
theorem list_filter_pagination_correct_witness :
    (((getUsers 1 2 "" "" "active" c2Db).data.all
        (fun item => userMatches "" "" "active" item.user)) = true ∧
     (getUsers 1 2 "" "" "active" c2Db).pagination =
       some { page := 1, limit := 2, total := 1, totalPages := 1 }) ∧
    (getEvents 9 2 "" "" c2Db).data = [] :=
  ⟨list_filter_pagination_correct.1 1 2 "" "" "active" c2Db rfl,
   list_filter_pagination_correct.2.2.2 9 2 "" "" c2Db rfl (by decide) (by decide)⟩

/-! ### Claim C10 -/

/-- C10: in the users list, a status value other than `all` (and not
empty, which disables the filter) is coerced by string equality with
`active` alone: the WHERE predicate factors into the status-free
predicate and the test `status = (value == "active")`, so every listed
item has boolean status true exactly when the query value is `active` —
an unrecognised value such as `banana` selects the inactive users. -/
theorem status_filter_coercion :
    (∀ (search role status : String) (u : UserRow), status ≠ "" → status ≠ "all" →
       userMatches search role status u =
         (userMatches search role "all" u && (u.status == (status == "active")))) ∧
    (∀ (page limit : Nat) (search role status : String) (db : DbState),
       db.fail = false → status ≠ "" → status ≠ "all" →
       ((getUsers page limit search role status db).data.all
          (fun item => item.user.status == (status == "active"))) = true) := by
  constructor
  · intro search role status u h1 h2
    have e1 : (status == "") = false := beq_eq_false_iff_ne.2 h1
    have e2 : (status == "all") = false := beq_eq_false_iff_ne.2 h2
    have e3 : (("all" : String) == "") = false := by decide
    have e4 : (("all" : String) == "all") = true := by decide
    unfold userMatches
    rw [e1, e2, e3, e4]
    simp [Bool.and_assoc]
  · intro page limit search role status db hfail h1 h2
    apply List.all_eq_true.2
    intro item hitem
    have hm := getUsers_data_matches page limit search role status db hfail item hitem
    have e1 : (status == "") = false := beq_eq_false_iff_ne.2 h1
    have e2 : (status == "all") = false := beq_eq_false_iff_ne.2 h2
    unfold userMatches at hm
    rw [e1, e2] at hm
    simp only [Bool.false_or, Bool.and_eq_true] at hm
    exact hm.2

/-- A store with one active and one inactive user used to witness C10. -/
def c10Db : DbState :=
  { emptyDb with users :=
      [{ uuid := "u1", username := "alice", email := "alice@example.com", role := "user",
         password := "pw1", status := true, created_at := 1, updated_at := 1 },
       { uuid := "u2", username := "bob", email := "bob@example.com", role := "admin",
         password := "pw2", status := false, created_at := 2, updated_at := 2 }] }

/-- A sample inactive row used to witness C10. -/
def c10Row : UserRow :=
  { uuid := "u2", username := "bob", email := "bob@example.com", role := "admin",
    password := "pw2", status := false, created_at := 2, updated_at := 2 }

/-- Witness for C10, at the unrecognised status value `banana`. -/
theorem status_filter_coercion_witness :
    (userMatches "" "" "banana" c10Row =
       (userMatches "" "" "all" c10Row && (c10Row.status == (("banana" : String) == "active")))) ∧
    ((getUsers 1 10 "" "" "banana" c10Db).data.all
       (fun item => item.user.status == (("banana" : String) == "active"))) = true :=
  ⟨status_filter_coercion.1 "" "" "banana" c10Row (by decide) (by decide),
   status_filter_coercion.2 1 10 "" "" "banana" c10Db rfl (by decide) (by decide)⟩

/-! ### Claim C5 -/

/-- C5: a user or group write that violates a uniqueness constraint is
answered with the human-readable message naming the conflicting field
(`Username already exists`, `Email already exists`, `Group name already
exists`), while any other storage failure gets the generic message; in
particular a second user with an already-used email gets the email
conflict message, and the conflict messages differ from the generic
ones. -/
theorem uniqueness_conflict_messages :
    (∀ (now : Nat) (newId : String) (req : CreateUserRequest) (db : DbState),
       db.fail = false → strFalsy req.username = false → strFalsy req.email = false →
       strFalsy req.password = false →
       db.users.any (fun r => r.username == req.username.getD "") = true →
       createUser now newId req db = (errResp 400 "Username already exists", db)) ∧
    (∀ (now : Nat) (newId : String) (req : CreateUserRequest) (db : DbState),
       db.fail = false → strFalsy req.username = false → strFalsy req.email = false →
       strFalsy req.password = false →
       db.users.any (fun r => r.username == req.username.getD "") = false →
       db.users.any (fun r => r.email == req.email.getD "") = true →
       createUser now newId req db = (errResp 400 "Email already exists", db)) ∧
    (∀ (now : Nat) (newId : String) (req : CreateGroupRequest) (db : DbState),
       db.fail = false → strFalsy req.name = false →
       db.groups.any (fun r => r.name == req.name.getD "") = true →
       createGroup now newId req db = (errResp 400 "Group name already exists", db)) ∧
    (∀ (now : Nat) (id : String) (u : UpdateUserRequest) (db : DbState) (e : String),
       db.fail = false → u.username = none → u.email = some e →
       (db.users.filter (fun r => r.uuid == id)).isEmpty = false →
       db.users.any (fun r => r.uuid != id && r.email == e) = true →
       updateUser now id u db = (errResp 400 "Email already exists", db)) ∧
    (∀ (now : Nat) (id : String) (u : UpdateGroupRequest) (db : DbState) (n : String),
       db.fail = false → u.name = some n →
       (db.groups.filter (fun r => r.uuid == id)).isEmpty = false →
       db.groups.any (fun r => r.uuid != id && r.name == n) = true →
       updateGroup now id u db = (errResp 400 "Group name already exists", db)) ∧
    (∀ (now : Nat) (newId : String) (req : CreateUserRequest) (db : DbState),
       db.fail = true → strFalsy req.username = false → strFalsy req.email = false →
       strFalsy req.password = false →
       createUser now newId req db = (errResp 400 "Failed to create user", db)) ∧
    (("Username already exists" ≠ "Failed to create user") ∧
     ("Email already exists" ≠ "Failed to create user") ∧
     ("Group name already exists" ≠ "Failed to create group")) := by
  refine ⟨?_, ?_, ?_, ?_, ?_, ?_, by decide⟩
  · intro now newId req db hfail h1 h2 h3 hdup
    unfold createUser dbInsertUser
    rw [h1, h2, h3, hfail, hdup]
    rfl
  · intro now newId req db hfail h1 h2 h3 hfresh hdup
    unfold createUser dbInsertUser
    rw [h1, h2, h3, hfail, hfresh, hdup]
    rfl
  · intro now newId req db hfail h1 hdup
    unfold createGroup dbInsertGroup
    rw [h1, hfail, hdup]
    rfl
  · intro now id u db e hfail hun hemail hmne hdup
    have hne : (u.fieldCount == 0) = false := by
      simp [UpdateUserRequest.fieldCount, hemail]
    unfold updateUser dbUpdateUsers
    rw [hne, hfail, hmne, hun, hemail]
    simp only [Option.any_none, Option.any_some, hdup]
    rfl
  · intro now id u db n hfail hname hmne hdup
    have hne : (u.fieldCount == 0) = false := by
      simp [UpdateGroupRequest.fieldCount, hname]
    unfold updateGroup dbUpdateGroups
    rw [hne, hfail, hmne, hname]
    simp only [Option.any_some, hdup]
    rfl
  · intro now newId req db hfail h1 h2 h3
    unfold createUser dbInsertUser
    rw [h1, h2, h3, hfail]
    rfl

/-- A one-user store used to witness C5. -/
def c5Db : DbState :=
  { emptyDb with users :=
      [{ uuid := "u1", username := "alice", email := "alice@example.com", role := "user",
         password := "pw1", status := true, created_at := 1, updated_at := 1 }] }

/-- Witness for C5: creating a second user with a fresh username but an
already-used email is rejected with the email conflict message. -/
theorem uniqueness_conflict_messages_witness :
    createUser 9 "u2"
      { username := some "carol", email := some "alice@example.com", role := none,
        password := some "pw9" } c5Db =
    (errResp 400 "Email already exists", c5Db) :=
  uniqueness_conflict_messages.2.1 9 "u2"
    { username := some "carol", email := some "alice@example.com", role := none,
      password := some "pw9" } c5Db rfl (by decide) (by decide) (by decide) (by decide) (by decide)

/-! ### Claim C7 -/

/-- A failing store used for the C7 counterexample. -/
def c7Db : DbState := { emptyDb with fail := true }

/-- A valid event create request used for the C7 counterexample. -/
def c7Req : CreateEventRequest :=
  { name := some "Standup", description := none, time_start := some 10, time_end := some 20,
    status := none }

/-- C7 counterexample: a create whose storage insert fails for a
non-uniqueness reason is answered 400, not the claimed 500. -/
theorem storage_failure_create_cex :
    (createEvent 1 "e9" c7Req c7Db).1.status = 400 ∧
    ¬((createEvent 1 "e9" c7Req c7Db).1.status = 500) := by
  decide

/-- C7 amended: an unexpected storage failure is answered 500 with a
generic message by the list, delete, and link handlers, but by the create
and update handlers it is answered 400 with the generic message. -/
theorem storage_failure_status_codes :
    (∀ (now : Nat) (newId : String) (req : CreateEventRequest) (db : DbState),
       db.fail = true → strFalsy req.name = false → natFalsy req.time_start = false →
       natFalsy req.time_end = false →
       ¬(req.time_end.getD 0 ≤ req.time_start.getD 0) →
       createEvent now newId req db = (errResp 400 "Failed to create event", db)) ∧
    (∀ (now : Nat) (newId : String) (req : CreateSurveyRequest) (db : DbState),
       db.fail = true → strFalsy req.name = false → req.form.isNone = false →
       req.form.any (fun f => !f.isObjectVal) = false →
       createSurvey now newId req db = (errResp 400 "Failed to create survey", db)) ∧
    (∀ (now : Nat) (id : String) (u : UpdateUserRequest) (db : DbState),
       db.fail = true → u.fieldCount ≠ 0 →
       updateUser now id u db = (errResp 400 "Failed to update user", db)) ∧
    (∀ (id : String) (db : DbState), db.fail = true →
       deleteUser id db = (errResp 500 "Failed to delete user", db)) ∧
    (∀ (db : DbState) (u g : Option String), db.fail = true →
       strFalsy u = false → strFalsy g = false →
       addUserToGroup u g db = (errResp 500 "Failed to add user to group", db)) ∧
    (∀ (page limit : Nat) (search role status : String) (db : DbState), db.fail = true →
       getUsers page limit search role status db =
         { status := 500, success := false, error := some "Failed to fetch users",
           data := [], pagination := none }) := by
  refine ⟨?_, ?_, ?_, ?_, ?_, ?_⟩
  · intro now newId req db hfail h1 h2 h3 hord
    unfold createEvent
    rw [h1, h2, h3, if_neg hord, hfail]
    rfl
  · intro now newId req db hfail h1 h2 h3
    unfold createSurvey
    rw [h1, h2, h3, hfail]
    rfl
  · intro now id u db hfail hne
    have hne2 : (u.fieldCount == 0) = false := by simpa using hne
    unfold updateUser dbUpdateUsers
    rw [hne2, hfail]
    rfl
  · intro id db hfail
    unfold deleteUser
    rw [hfail]
    rfl
  · intro db u g hfail hu hg
    unfold addUserToGroup
    rw [hu, hg, hfail]
    rfl
  · intro page limit search role status db hfail
    unfold getUsers
    rw [hfail]
    rfl

/-- A storage failure during a user delete, used to witness C7 amended. -/
theorem storage_failure_status_codes_witness :
    (createEvent 1 "e9" c7Req c7Db = (errResp 400 "Failed to create event", c7Db)) ∧
    (deleteUser "u1" c7Db = (errResp 500 "Failed to delete user", c7Db)) :=
  ⟨storage_failure_status_codes.1 1 "e9" c7Req c7Db rfl (by decide) (by decide) (by decide)
     (by decide),
   storage_failure_status_codes.2.2.2.1 "u1" c7Db rfl⟩

/-! ### Claim C3 -/

/-- A one-event store used for the C3 counterexample. -/
def c3Db : DbState :=
  { emptyDb with events :=
      [{ uuid := "e1", name := "Launch", description := none, time_start := 10, time_end := 20,
         status := "scheduled", created_at := 1, updated_at := 1 }] }

/-- An update supplying only `time_end`, used for the C3 counterexample. -/
def c3Upd : UpdateEventRequest :=
  { name := none, description := none, time_start := none, time_end := some 5, status := none }

/-- C3 counterexample: an event update that supplies only `time_end`
(moving it before the stored `time_start`) succeeds and leaves a stored
event violating `time_end > time_start`. -/
theorem event_time_invariant_cex :
    (updateEvent 50 "e1" c3Upd c3Db).1.status = 200 ∧
    ∃ e ∈ (updateEvent 50 "e1" c3Upd c3Db).2.events, e.time_end ≤ e.time_start := by
  decide

/-- C3 amended: the time-ordering invariant is enforced on create and on
updates supplying both time fields — after such a successful write every
stored event is either an untouched prior row or satisfies
`time_start < time_end`; an update supplying at most one time field is
not validated against the stored row. -/
theorem event_time_checked_writes :
    (∀ (now : Nat) (newId : String) (req : CreateEventRequest) (db : DbState),
       (createEvent now newId req db).1.status = 201 →
       ((createEvent now newId req db).2.events.all
          (fun r => decide (r ∈ db.events) || decide (r.time_start < r.time_end))) = true) ∧
    (∀ (now : Nat) (id : String) (u : UpdateEventRequest) (db : DbState) (ts te : Nat),
       u.time_start = some ts → u.time_end = some te →
       (updateEvent now id u db).1.status = 200 →
       ((updateEvent now id u db).2.events.all
          (fun r => decide (r ∈ db.events) || decide (r.time_start < r.time_end))) = true) := by
  constructor
  · intro now newId req db hok
    unfold createEvent at hok ⊢
    cases h1 : (strFalsy req.name || natFalsy req.time_start || natFalsy req.time_end)
    · rw [h1] at hok
      simp only [Bool.false_eq_true, if_false] at hok ⊢
      by_cases h2 : (req.time_end.getD 0 ≤ req.time_start.getD 0)
      · rw [if_pos h2] at hok
        simp [errResp] at hok
      · rw [if_neg h2] at hok ⊢
        cases hf : db.fail
        · rw [hf] at hok
          simp only [Bool.false_eq_true, if_false] at hok ⊢
          apply List.all_eq_true.2
          intro r hr
          rcases List.mem_append.1 hr with hr | hr
          · simp [hr]
          · simp only [List.mem_singleton] at hr
            subst hr
            simp only [Bool.or_eq_true, decide_eq_true_eq]
            right
            omega
        · rw [hf] at hok
          simp [errResp] at hok
    · rw [h1] at hok
      simp [errResp] at hok
  · intro now id u db ts te hts hte hok
    unfold updateEvent at hok ⊢
    rw [hts, hte] at hok ⊢
    simp only [Option.isSome_some, Option.getD_some, Bool.true_and] at hok ⊢
    by_cases h2 : te ≤ ts
    · rw [decide_eq_true h2] at hok
      simp [errResp] at hok
    · rw [decide_eq_false h2] at hok ⊢
      simp only [Bool.false_eq_true, if_false] at hok ⊢
      have hne2 : (u.fieldCount == 0) = false := by
        simp [UpdateEventRequest.fieldCount, hte]
      rw [hne2] at hok ⊢
      simp only [Bool.false_eq_true, if_false] at hok ⊢
      cases hf : db.fail
      · rw [hf] at hok
        simp only [Bool.false_eq_true, if_false] at hok ⊢
        cases hm : (db.events.filter (fun r => r.uuid == id)).isEmpty
        · rw [hm] at hok
          simp only [Bool.false_eq_true, if_false] at hok ⊢
          apply List.all_eq_true.2
          intro r hr
          obtain ⟨x, hx, rfl⟩ := List.mem_map.1 hr
          cases hid : (x.uuid == id)
          · rw [if_neg (by simp : ¬(false = true))]
            simp [hx]
          · rw [if_pos rfl]
            simp only [Bool.or_eq_true, decide_eq_true_eq]
            right
            unfold applyEventUpdate
            simp only [hts, hte, Option.getD_some]
            omega
        · rw [hm] at hok
          simp [errResp] at hok
      · rw [hf] at hok
        simp [errResp] at hok

/-- Witness for C3 amended: a successful create and a successful
both-fields update, each leaving only time-ordered or untouched rows. -/
theorem event_time_checked_writes_witness :
    ((createEvent 4 "e2"
        { name := some "Retro", description := none, time_start := some 30,
          time_end := some 40, status := none } c3Db).2.events.all
       (fun r => decide (r ∈ c3Db.events) || decide (r.time_start < r.time_end))) = true ∧
    ((updateEvent 5 "e1"
        { name := none, description := none, time_start := some 100,
          time_end := some 200, status := none } c3Db).2.events.all
       (fun r => decide (r ∈ c3Db.events) || decide (r.time_start < r.time_end))) = true :=
  ⟨event_time_checked_writes.1 4 "e2"
     { name := some "Retro", description := none, time_start := some 30,
       time_end := some 40, status := none } c3Db (by decide),
   event_time_checked_writes.2 5 "e1"
     { name := none, description := none, time_start := some 100,
       time_end := some 200, status := none } c3Db 100 200 rfl rfl (by decide)⟩

/-- A store with one user, one group and one user-group link, used to
witness C8. -/
def c8Db : DbState :=
  { emptyDb with
    users :=
      [{ uuid := "u1", username := "alice", email := "alice@example.com", role := "user",
         password := "pw1", status := true, created_at := 1, updated_at := 1 }],
    groups :=
      [{ uuid := "g1", name := "Engineering", description := none,
         created_at := 1, updated_at := 1 }],
    relation_group_user := [{ user_id := "u1", group_id := "g1" }] }

/-- Witness for C8: re-adding an existing user-group pair is a silent
no-op, removing an absent event-group pair is a silent no-op, and a link
call missing an identifier is rejected 400. -/
theorem relation_link_semantics_witness :
    (addUserToGroup (some "u1") (some "g1") c8Db =
       (okResp "User added to group successfully", c8Db)) ∧
    (removeEventFromGroup (some "e9") (some "g1") c8Db =
       (okResp "Event removed from group successfully", c8Db)) ∧
    (addSurveyToEvent none (some "e1") none c8Db =
       (errResp 400 "Survey ID and Event ID are required", c8Db)) :=
  ⟨relation_link_semantics.1.2.1 c8Db (some "u1") (some "g1")
     (by decide) (by decide) rfl (by decide),
   relation_link_semantics.2.1.2.2.1 c8Db (some "e9") (some "g1")
     (by decide) (by decide) rfl (by decide),
   (relation_link_semantics.2.2.2.2.2 c8Db none (some "e1") none (by decide)).1⟩

end AdminPanel
